import Mathlib

/-!
Verification of the desktop control plane of the speekium voice assistant.

The definitions below are a shallow embedding of the Rust sources under
`src-tauri/src/`: the operation state machine (`types.rs`, `lib.rs`,
`commands/mod.rs`), the worker line protocol (`daemon/process.rs`,
`daemon/startup.rs`) and the audio pipeline (`audio.rs`).  Stateful code is
embedded by explicit state passing (the relevant globals are threaded as
arguments and returned updated), fallible code returns `Except String`,
machine integers are `Nat`/`Int` with explicit `% 2 ^ w` where overflow
matters, and floating point samples are idealized as exact rationals.
-/

-- ============================================================================
-- Operation state machine  (src-tauri/src/types.rs)
-- ============================================================================

/-- `AppStatus` from `types.rs`: the 7 mutually exclusive operation states. -/
inductive AppStatus
  | Idle
  | Listening
  | Recording
  | AsrProcessing
  | LlmProcessing
  | TtsProcessing
  | Playing
deriving DecidableEq, Repr

/-- `AppStatus::as_str` from `types.rs`. -/
def AppStatus.as_str : AppStatus → String
  | .Idle => "idle"
  | .Listening => "listening"
  | .Recording => "recording"
  | .AsrProcessing => "asr"
  | .LlmProcessing => "llm"
  | .TtsProcessing => "tts"
  | .Playing => "playing"

/-- `AppStatus::can_be_interrupted` from `types.rs` (the `u8` priority is
embedded as `Nat`; the Rust `match` arms `1`, `2`, `3`, `_` are mirrored). -/
def AppStatus.can_be_interrupted (s : AppStatus) (interrupt_priority : Nat) : Bool :=
  match interrupt_priority with
  | 1 => true
  | 2 => s == .Recording || s == .Listening
  | 3 => s != .Recording
  | _ => false

/-- `RecordingMode` from `types.rs`. -/
inductive RecordingMode
  | Continuous
  | PushToTalk
deriving DecidableEq, Repr

/-- `RecordingMode::from_str` from `types.rs`. -/
def RecordingMode.from_str (s : String) : Option RecordingMode :=
  match s with
  | "continuous" => some .Continuous
  | "push-to-talk" => some .PushToTalk
  | _ => none

-- ============================================================================
-- transition_status  (src-tauri/src/lib.rs, lines 1545-1602)
-- ============================================================================

/-- The `valid_transition` match of `transition_status` in `lib.rs`: the
explicit directed edges, with the trailing `_ if current == new` arm. -/
def valid_transition (current new : AppStatus) : Bool :=
  match current, new with
  | .Idle, .Listening => true
  | .Idle, .Recording => true
  | .Listening, .Recording => true
  | .Listening, .Idle => true
  | .Recording, .AsrProcessing => true
  | .Recording, .Idle => true
  | .AsrProcessing, .Idle => true
  | .AsrProcessing, .LlmProcessing => true
  | .LlmProcessing, .TtsProcessing => true
  | .LlmProcessing, .Idle => true
  | .TtsProcessing, .Playing => true
  | .TtsProcessing, .Idle => true
  | .Playing, .Idle => true
  | .Playing, .Listening => true
  | c, n => c == n

/-- `transition_status` from `lib.rs`, with the global `APP_STATUS` threaded
explicitly: given the stored status and the requested one, return the command
result together with the status left in the global afterwards. -/
def transition_status (current new : AppStatus) : Except String Unit × AppStatus :=
  if valid_transition current new then
    (Except.ok (), new)
  else
    (Except.error ("Invalid status transition: " ++ current.as_str ++ " → " ++ new.as_str),
     current)

/-- The legal-transition table of spec §4.3, transcribed from the spec's own
words (for comparison against `valid_transition`, which comes from the code). -/
def spec_legal_edge (current new : AppStatus) : Bool :=
  match current, new with
  | .Idle, .Listening | .Idle, .Recording => true
  | .Listening, .Recording | .Listening, .Idle => true
  | .Recording, .AsrProcessing | .Recording, .Idle => true
  | .AsrProcessing, .Idle | .AsrProcessing, .LlmProcessing => true
  | .LlmProcessing, .TtsProcessing | .LlmProcessing, .Idle => true
  | .TtsProcessing, .Playing | .TtsProcessing, .Idle => true
  | .Playing, .Idle | .Playing, .Listening => true
  | _, _ => false

-- ============================================================================
-- interrupt_operation  (src-tauri/src/commands/mod.rs, lines 181-211)
-- ============================================================================

/-- `interrupt_operation` from `commands/mod.rs`, with the globals
`APP_STATUS` and `RECORDING_ABORTED` threaded explicitly.  The best-effort
`call_daemon("interrupt", ...)` issued for `LlmProcessing`/`TtsProcessing`/
`Playing` is an external side effect with no influence on the local state
(its failure is ignored by the code), so it does not appear in the model.
Returns the command result, the new stored status and the new abort flag. -/
def interrupt_operation (priority : Nat) (current_status : AppStatus) (aborted : Bool) :
    Except String String × AppStatus × Bool :=
  if current_status.can_be_interrupted priority then
    let aborted' :=
      match current_status with
      | .Recording => true
      | _ => aborted
    let status' := if priority ≤ 2 then AppStatus.Idle else current_status
    (Except.ok ("Interrupted: " ++ current_status.as_str), status', aborted')
  else
    (Except.error ("Cannot interrupt status " ++ current_status.as_str ++
       " with priority " ++ toString priority),
     current_status, aborted)

-- ============================================================================
-- set_recording_mode  (src-tauri/src/commands/mod.rs, lines 127-146)
-- ============================================================================

/-- The mode-related globals mutated by `set_recording_mode`:
`RECORDING_MODE` and `RECORDING_ABORTED` from `daemon/state.rs`. -/
structure ModeState where
  mode : RecordingMode
  aborted : Bool
deriving DecidableEq, Repr

/-- `set_recording_mode` from `commands/mod.rs`, with the globals threaded
explicitly.  The fire-and-forget `send_command_no_wait("interrupt", ...)` to
the worker in the push-to-talk branch is an external notification with no
local state effect and is not part of the model. -/
def set_recording_mode (mode : String) (st : ModeState) : Except String Unit × ModeState :=
  match RecordingMode.from_str mode with
  | none => (Except.error ("Invalid recording mode: " ++ mode), st)
  | some new_mode =>
    let aborted' := if new_mode == RecordingMode.Continuous then false else true
    (Except.ok (), { mode := new_mode, aborted := aborted' })

-- ============================================================================
-- Line-oriented JSON protocol  (src-tauri/src/daemon/process.rs)
-- ============================================================================

/-- Parsed JSON values (the shape `serde_json::Value` gives to protocol
lines).  Numbers are idealized as exact rationals. -/
inductive Json
  | null
  | bool (b : Bool)
  | num (q : ℚ)
  | str (s : String)
  | arr (elems : List Json)
  | obj (fields : List (String × Json))

/-- Key lookup in a JSON object's field list (first occurrence wins). -/
def assoc_find : List (String × Json) → String → Option Json
  | [], _ => none
  | (k, v) :: rest, key => if k == key then some v else assoc_find rest key

/-- `serde_json::Value::get(key)`: `some` exactly when the value is an object
carrying the key. -/
def Json.get (j : Json) (key : String) : Option Json :=
  match j with
  | .obj fields => assoc_find fields key
  | _ => none

/-- `value.get(key).and_then(|v| v.as_str())`: the field, if present and a
JSON string. -/
def Json.get_str (j : Json) (key : String) : Option String :=
  match j.get key with
  | some (.str s) => some s
  | _ => none

/-- One line read from the worker's standard output: `some j` when the line
parses as JSON `j`, `none` when `serde_json::from_str` fails on it. -/
abbrev RawLine := Option Json

/-- `prefix_match pat hay`: `pat` is an initial segment of `hay`. -/
def prefix_match : List Char → List Char → Bool
  | [], _ => true
  | _ :: _, [] => false
  | c :: cs, d :: ds => c == d && prefix_match cs ds

/-- `sub_occurs pat hay`: `pat` occurs contiguously somewhere in `hay`. -/
def sub_occurs (pat : List Char) : List Char → Bool
  | [] => prefix_match pat []
  | d :: ds => prefix_match pat (d :: ds) || sub_occurs pat ds

/-- Rust `str::contains(pat)` for a literal pattern: substring occurrence
(byte-level matching of valid UTF-8 coincides with character-level matching,
since UTF-8 is self-synchronizing). -/
def contains_sub (hay pat : String) : Bool :=
  sub_occurs pat.data hay.data

-- ============================================================================
-- Initialization handshake  (PythonDaemon::new, daemon/process.rs 108-146;
-- the same loop appears in start_daemon_async, daemon/startup.rs 266-334)
-- ============================================================================

/-- The test applied to each standard-output line during initialization:
the line parses as JSON, its `"event"` field is the string
`"daemon_success"`, and its `"message"` field is a string containing the
substring `"就绪"` or `"ready"`. -/
def is_ready_line (l : RawLine) : Bool :=
  match l with
  | none => false
  | some j =>
    match j.get_str "event" with
    | some event_type =>
      event_type == "daemon_success" &&
        (match j.get_str "message" with
         | some message => contains_sub message "就绪" || contains_sub message "ready"
         | none => false)
    | none => false

/-- The initialization loop of `PythonDaemon::new` over a finite sequence of
standard-output lines (`[]` is end-of-stream, i.e. `read_line` returning
`Ok(0)`): every line failing the ready test is ignored as log noise; the
first ready line breaks the loop with success; end-of-stream is the
early-exit error. -/
def await_ready : List RawLine → Except String Unit
  | [] => Except.error "Daemon exited during initialization"
  | l :: rest => if is_ready_line l then Except.ok () else await_ready rest

-- ============================================================================
-- Request/response round trip  (PythonDaemon::send_command,
-- daemon/process.rs 149-218)
-- ============================================================================

/-- The synthetic response `send_command` fabricates when the
`RECORDING_ABORTED` flag is observed set. -/
def cancelled_response : Json :=
  Json.obj [("success", Json.bool false), ("error", Json.str "Recording cancelled")]

/-- The command-specific discriminant field the response-reading loop of
`send_command` waits for: `"models"` for `model_status`, `"status"` for
`health`, `"success"` for every other command. -/
def expected_field (command : String) : String :=
  match command with
  | "model_status" => "models"
  | "health" => "status"
  | _ => "success"

/-- `PythonDaemon::send_command` from `daemon/process.rs`, embedded over a
finite sequence of response-pipe lines.  The write/flush of the request is an
external effect; the model is the response-reading loop.  `aborted` is the
value of the `RECORDING_ABORTED` flag (held fixed over the loop, matching a
run with no concurrent interrupt).  End-of-stream makes `read_line` yield an
empty line, which fails JSON parsing, hence `[]` and an unparseable line both
produce the parse error.  A parsed line with an `"event"` field is skipped as
a log; a line without the command's expected discriminant field is likewise
skipped; the first line carrying it is returned. -/
def send_command (aborted : Bool) (command : String) : List RawLine → Except String Json
  | [] =>
    if aborted then Except.ok cancelled_response
    else Except.error "Failed to parse JSON"
  | l :: rest =>
    if aborted then Except.ok cancelled_response
    else
      match l with
      | none => Except.error "Failed to parse JSON"
      | some result =>
        if (result.get "event").isSome then send_command aborted command rest
        else if (result.get (expected_field command)).isSome then Except.ok result
        else send_command aborted command rest

/-- A parsed line the reading loop of `send_command` accepts as the response
to `command`: no `"event"` key, and the command's discriminant field present. -/
def is_response (command : String) (j : Json) : Bool :=
  !(j.get "event").isSome && (j.get (expected_field command)).isSome

-- ============================================================================
-- Audio capture pipeline  (src-tauri/src/audio.rs)
-- ============================================================================

/-- `SAMPLE_RATE` from `audio.rs`: 16 kHz target rate for ASR. -/
def SAMPLE_RATE : Nat := 16000

/-- `CHANNELS` from `audio.rs`: mono. -/
def CHANNELS : Nat := 1

/-- `data.chunks(channels).map(|chunk| chunk.iter().sum() / chunk.len())`
from `process_audio_data`: split into frames of `channels` samples (the last
frame may be shorter) and average each frame.  Only reached by the code when
`channels ≥ 2` (Rust `chunks(0)` panics; this total model groups by 1 then). -/
def chunk_avg (channels : Nat) : List ℚ → List ℚ
  | [] => []
  | x :: xs =>
    let c := x :: xs.take (channels - 1)
    (c.sum / (c.length : ℚ)) :: chunk_avg channels (xs.drop (channels - 1))
termination_by l => l.length
decreasing_by simp; omega

/-- `process_audio_data` from `audio.rs` (lines 315-351): downmix to mono,
then linearly resample from `src_rate` to `SAMPLE_RATE` unless the rates
already agree.  The `f64` index arithmetic of the source is idealized as
exact rational arithmetic; `src_idx as usize` is truncation toward zero,
i.e. the floor of the non-negative `src_idx`. -/
def process_audio_data (data : List ℚ) (src_rate : Nat) (channels : Nat) : List ℚ :=
  let mono_data := if channels > 1 then chunk_avg channels data else data
  if src_rate ≠ SAMPLE_RATE then
    let ratio : ℚ := (SAMPLE_RATE : ℚ) / (src_rate : ℚ)
    let output_len : Nat := (⌈(mono_data.length : ℚ) * ratio⌉).toNat
    (List.range output_len).map (fun (i : Nat) =>
      let src_idx : ℚ := (i : ℚ) / ratio
      let idx : Nat := (⌊src_idx⌋).toNat
      let frac : ℚ := src_idx - (idx : ℚ)
      if idx + 1 < mono_data.length then
        mono_data.getD idx 0 * (1 - frac) + mono_data.getD (idx + 1) 0 * frac
      else if idx < mono_data.length then
        mono_data.getD idx 0
      else 0)
  else
    mono_data

/-- Truncation toward zero, the rounding of Rust's float-to-integer `as`
casts (the clamped operand keeps it inside the `i16` range, so the cast's
saturation never engages). -/
def rat_trunc (q : ℚ) : Int :=
  if 0 ≤ q then ⌊q⌋ else -⌊-q⌋

/-- `(sample.max(-1.0).min(1.0) * i16::MAX as f32) as i16` from
`samples_to_wav`: clamp to `[-1, 1]`, scale by 32767, truncate. -/
def sample_to_i16 (sample : ℚ) : Int :=
  rat_trunc (min (max sample (-1)) 1 * 32767)

/-- `u16::to_le_bytes`: two little-endian bytes of a value below `2 ^ 16`. -/
def u16_le_bytes (n : Nat) : List Nat :=
  [n % 256, n / 256 % 256]

/-- `u32::to_le_bytes`: four little-endian bytes of a value below `2 ^ 32`. -/
def u32_le_bytes (n : Nat) : List Nat :=
  [n % 256, n / 256 % 256, n / 65536 % 256, n / 16777216 % 256]

/-- `i16::to_le_bytes`: the two's-complement little-endian bytes. -/
def i16_le_bytes (i : Int) : List Nat :=
  u16_le_bytes ((i % 65536).toNat)

/-- The sample section of the WAV body: each `f32` sample converted to `i16`
and appended as two little-endian bytes. -/
def sample_bytes : List ℚ → List Nat
  | [] => []
  | s :: rest => i16_le_bytes (sample_to_i16 s) ++ sample_bytes rest

/-- `samples_to_wav` from `audio.rs` (lines 354-390).  `data_size` is
`(samples.len() * 2) as u32` (the cast wraps modulo `2 ^ 32`) and
`file_size` is the `u32` sum `data_size + 36`; all header fields are emitted
in the source's order.  Bytes are modelled as `Nat` values below 256. -/
def samples_to_wav (samples : List ℚ) : List Nat :=
  let data_size := samples.length * 2 % 4294967296
  let file_size := (data_size + 36) % 4294967296
  -- RIFF header
  [82, 73, 70, 70]                                 -- "RIFF"
  ++ u32_le_bytes file_size
  ++ [87, 65, 86, 69]                              -- "WAVE"
  -- fmt chunk
  ++ [102, 109, 116, 32]                           -- "fmt "
  ++ u32_le_bytes 16                               -- chunk size
  ++ u16_le_bytes 1                                -- audio format (PCM)
  ++ u16_le_bytes CHANNELS                         -- channels
  ++ u32_le_bytes SAMPLE_RATE                      -- sample rate
  ++ u32_le_bytes (SAMPLE_RATE * CHANNELS * 2)     -- byte rate
  ++ u16_le_bytes (CHANNELS * 2)                   -- block align
  ++ u16_le_bytes 16                               -- bits per sample
  -- data chunk
  ++ [100, 97, 116, 97]                            -- "data"
  ++ u32_le_bytes data_size
  ++ sample_bytes samples

/-- Little-endian 16-bit read-back of an encoded header field. -/
def read_u16_le (bytes : List Nat) (off : Nat) : Nat :=
  bytes.getD off 0 + 256 * bytes.getD (off + 1) 0

/-- Little-endian 32-bit read-back of an encoded header field. -/
def read_u32_le (bytes : List Nat) (off : Nat) : Nat :=
  bytes.getD off 0 + 256 * bytes.getD (off + 1) 0
    + 65536 * bytes.getD (off + 2) 0 + 16777216 * bytes.getD (off + 3) 0

-- ============================================================================
-- AudioRecorder::stop_recording  (src-tauri/src/audio.rs, lines 87-131)
-- ============================================================================

/-- The recorder state `stop_recording` reads: the shared `is_recording`
flag and the drained sample buffer (the capture thread owning the hardware
stream is outside the model; the buffer holds whatever it appended). -/
structure RecorderState where
  is_recording : Bool
  buffer : List ℚ

/-- The audio artifact (`AudioData` in `audio.rs`).  The temporary file path
(timestamp-named, written via the filesystem) is an external effect and is
not part of the model. -/
structure AudioData where
  sample_rate : Nat
  duration_secs : ℚ
  sample_count : Nat
deriving DecidableEq, Repr

/-- `AudioRecorder::stop_recording`: `Not recording` when no session is
active, else drain the buffer, compute the duration, reject an empty
capture, and return the artifact.  The stop-signal send and thread join act
on the capture thread and leave the drained buffer as modelled. -/
def stop_recording (st : RecorderState) : Except String AudioData :=
  if !st.is_recording then Except.error "Not recording"
  else
    let samples := st.buffer
    let duration_secs : ℚ := (samples.length : ℚ) / (SAMPLE_RATE : ℚ)
    if samples.isEmpty then Except.error "No audio data recorded"
    else
      Except.ok
        { sample_rate := SAMPLE_RATE
          duration_secs := duration_secs
          sample_count := samples.length }

-- ============================================================================
-- C2: transition table completeness
-- ============================================================================

/-- C2: for every pair of the 7 states, `transition_status` succeeds and
stores the new state exactly when the pair is an edge of the §4.3 table or a
self-transition; every other pair yields the `InvalidTransition` error naming
both endpoints and leaves the stored state unchanged. -/
theorem transition_table_complete :
    ∀ current new : AppStatus,
      transition_status current new =
        if spec_legal_edge current new || current == new then
          (Except.ok (), new)
        else
          (Except.error ("Invalid status transition: " ++ current.as_str ++ " → " ++ new.as_str),
           current) := by
  intro c n
  cases c <;> cases n <;> rfl

-- ============================================================================
-- C3: interrupt permission policy
-- ============================================================================

/-- C3: priority 1 is always permitted, priority 2 exactly for `Recording`
and `Listening`, priority 3 exactly outside `Recording`, and a non-permitted
interrupt makes `interrupt_operation` return an error. -/
theorem interrupt_priority_policy (s : AppStatus) (p : Nat) (flag : Bool)
    (h : s.can_be_interrupted p = false) :
    s.can_be_interrupted 1 = true ∧
    (s.can_be_interrupted 2 = true ↔ s = .Recording ∨ s = .Listening) ∧
    (s.can_be_interrupted 3 = true ↔ s ≠ .Recording) ∧
    (interrupt_operation p s flag).1 =
      Except.error ("Cannot interrupt status " ++ s.as_str ++ " with priority " ++ toString p) := by
  refine ⟨rfl, ?_, ?_, ?_⟩
  · cases s <;> simp [AppStatus.can_be_interrupted]
  · cases s <;> simp [AppStatus.can_be_interrupted]
  · simp [interrupt_operation, h]

/-- Witness for C3 at the concrete non-permitted pair `(Idle, priority 2)`. -/
theorem interrupt_priority_policy_witness :
    AppStatus.can_be_interrupted .Idle 2 = false ∧
    (AppStatus.can_be_interrupted .Idle 1 = true ∧
     (AppStatus.can_be_interrupted .Idle 2 = true ↔
        AppStatus.Idle = .Recording ∨ AppStatus.Idle = .Listening) ∧
     (AppStatus.can_be_interrupted .Idle 3 = true ↔ AppStatus.Idle ≠ .Recording) ∧
     (interrupt_operation 2 .Idle false).1 =
       Except.error ("Cannot interrupt status " ++ AppStatus.Idle.as_str ++
         " with priority " ++ toString (2 : Nat))) :=
  ⟨by decide, interrupt_priority_policy .Idle 2 false (by decide)⟩

-- ============================================================================
-- C4: effects of a permitted interrupt
-- ============================================================================

/-- C4 counterexample: `interrupt(2)` from `Listening` is permitted, yet the
recording abort flag stays `false` (only `Recording` sets it), refuting the
claim that `Listening` also sets the flag; the status does become `Idle`. -/
theorem interrupt_listening_no_abort_cex :
    AppStatus.can_be_interrupted .Listening 2 = true ∧
    (interrupt_operation 2 .Listening false).2.2 = false ∧
    (interrupt_operation 2 .Listening false).2.1 = AppStatus.Idle := by
  decide

/-- C4 (amended): on a permitted `interrupt(p)` from state `s`, the abort
flag is set exactly when `s` is `Recording` (otherwise it keeps its previous
value, also for `Listening`); priorities 1-2 force the stored status to
`Idle`; priority 3 leaves it unchanged; in particular `interrupt(2)` from
`Recording` ends `Idle` with the abort flag `true`. -/
theorem interrupt_effects (p : Nat) (s : AppStatus) (flag : Bool)
    (h : s.can_be_interrupted p = true) :
    (interrupt_operation p s flag).2.2 = (flag || s == .Recording) ∧
    (p ≤ 2 → (interrupt_operation p s flag).2.1 = .Idle) ∧
    (p = 3 → (interrupt_operation p s flag).2.1 = s) ∧
    ((interrupt_operation 2 .Recording false).2.1 = .Idle ∧
     (interrupt_operation 2 .Recording false).2.2 = true) := by
  refine ⟨?_, ?_, ?_, by decide⟩
  · simp only [interrupt_operation, h, if_true]
    cases s <;> cases flag <;> simp
  · intro hp
    simp [interrupt_operation, h, hp]
  · intro hp
    subst hp
    simp [interrupt_operation, h]

/-- Witness for C4 at the concrete scenario: `interrupt(2)` from `Recording`
with the abort flag initially `false`. -/
theorem interrupt_effects_witness :
    AppStatus.can_be_interrupted .Recording 2 = true ∧
    ((interrupt_operation 2 .Recording false).2.2 =
        (false || AppStatus.Recording == .Recording) ∧
     ((2 : Nat) ≤ 2 → (interrupt_operation 2 .Recording false).2.1 = .Idle) ∧
     ((2 : Nat) = 3 → (interrupt_operation 2 .Recording false).2.1 = .Recording) ∧
     ((interrupt_operation 2 .Recording false).2.1 = .Idle ∧
      (interrupt_operation 2 .Recording false).2.2 = true)) :=
  ⟨by decide, interrupt_effects 2 .Recording false (by decide)⟩

-- ============================================================================
-- C9: priorities outside {1, 2, 3}
-- ============================================================================

/-- C9: for every state and every priority other than 1, 2 or 3, the
permission check returns `false` and `interrupt_operation` returns an error
while leaving status and abort flag unchanged. -/
theorem invalid_priority_rejected (s : AppStatus) (p : Nat) (flag : Bool)
    (h1 : p ≠ 1) (h2 : p ≠ 2) (h3 : p ≠ 3) :
    s.can_be_interrupted p = false ∧
    interrupt_operation p s flag =
      (Except.error ("Cannot interrupt status " ++ s.as_str ++
         " with priority " ++ toString p),
       s, flag) := by
  have hc : s.can_be_interrupted p = false := by
    rcases p with _ | _ | _ | _ | n
    · rfl
    · exact absurd rfl h1
    · exact absurd rfl h2
    · exact absurd rfl h3
    · rfl
  exact ⟨hc, by simp [interrupt_operation, hc]⟩

/-- Witness for C9 at priority 0 from `Idle`. -/
theorem invalid_priority_rejected_witness :
    (0 : Nat) ≠ 1 ∧ (0 : Nat) ≠ 2 ∧ (0 : Nat) ≠ 3 ∧
    (AppStatus.can_be_interrupted .Idle 0 = false ∧
     interrupt_operation 0 .Idle false =
       (Except.error ("Cannot interrupt status " ++ AppStatus.Idle.as_str ++
          " with priority " ++ toString (0 : Nat)),
        .Idle, false)) :=
  ⟨by decide, by decide, by decide,
   invalid_priority_rejected .Idle 0 false (by decide) (by decide) (by decide)⟩

-- ============================================================================
-- C10: set_recording_mode
-- ============================================================================

/-- C10: a non-canonical mode string is rejected and both the stored mode and
the abort flag are unchanged; a canonical encoding stores the parsed mode and
sets the abort flag exactly when the new mode is push-to-talk (clearing it
for continuous). -/
theorem set_recording_mode_spec (mode : String) (st : ModeState) :
    (RecordingMode.from_str mode = none →
      set_recording_mode mode st = (Except.error ("Invalid recording mode: " ++ mode), st)) ∧
    (∀ m, RecordingMode.from_str mode = some m →
      set_recording_mode mode st =
        (Except.ok (), { mode := m, aborted := m == RecordingMode.PushToTalk })) := by
  constructor
  · intro h
    simp [set_recording_mode, h]
  · intro m h
    cases m <;> simp [set_recording_mode, h]

/-- Witness for C10: switching to `"push-to-talk"` while the stored mode is
continuous stores push-to-talk and sets the abort flag. -/
theorem set_recording_mode_spec_witness :
    RecordingMode.from_str "push-to-talk" = some RecordingMode.PushToTalk ∧
    set_recording_mode "push-to-talk" ⟨RecordingMode.Continuous, false⟩ =
      (Except.ok (),
       { mode := RecordingMode.PushToTalk,
         aborted := RecordingMode.PushToTalk == RecordingMode.PushToTalk }) :=
  ⟨by decide,
   (set_recording_mode_spec "push-to-talk" ⟨RecordingMode.Continuous, false⟩).2
     RecordingMode.PushToTalk (by decide)⟩

-- ============================================================================
-- C5: initialization handshake
-- ============================================================================

/-- C5: over any finite sequence of standard-output lines, the handshake
returns ready exactly when some line is a `daemon_success` event whose
message contains `"ready"` or `"就绪"`, and the early-exit error otherwise;
in particular `loading_asr` followed by a `就绪` success line yields ready,
while `loading_asr` followed by stream close yields the early-exit error. -/
theorem await_ready_spec :
    (∀ lines : List RawLine,
      await_ready lines =
        if lines.any is_ready_line then Except.ok ()
        else Except.error "Daemon exited during initialization") ∧
    await_ready
        [some (Json.obj [("event", Json.str "loading_asr")]),
         some (Json.obj [("event", Json.str "daemon_success"),
                         ("message", Json.str "就绪")])] = Except.ok () ∧
    await_ready [some (Json.obj [("event", Json.str "loading_asr")])] =
      Except.error "Daemon exited during initialization" := by
  refine ⟨?_, rfl, rfl⟩
  intro lines
  induction lines with
  | nil => rfl
  | cons l rest ih =>
    cases hl : is_ready_line l <;> simp [await_ready, hl, ih]

-- ============================================================================
-- C1: request/response round trip
-- ============================================================================

/-- C1 counterexample: for command `"chat"`, a single well-formed response
line without an `"event"` key but also without a `"success"` key is *not*
returned: the loop skips it and runs into end-of-stream, refuting the claim
that the first line lacking an `"event"` key is always returned. -/
theorem send_command_skips_unmarked_cex :
    Json.get (Json.obj [("ok", Json.null)]) "event" = none ∧
    send_command false "chat" [some (Json.obj [("ok", Json.null)])] =
      Except.error "Failed to parse JSON" :=
  ⟨rfl, rfl⟩

/-- The response-reading loop returns the first line accepted by
`is_response` and errors at end-of-stream when none is. -/
theorem send_command_eq_find (command : String) (lines : List Json) :
    send_command false command (lines.map some) =
      match lines.find? (is_response command) with
      | some r => Except.ok r
      | none => Except.error "Failed to parse JSON" := by
  induction lines with
  | nil => rfl
  | cons j rest ih =>
    by_cases he : (j.get "event").isSome
    · rw [List.map_cons, List.find?_cons_of_neg _ (by simp [is_response, he])]
      simpa [send_command, he] using ih
    · by_cases hf : (j.get (expected_field command)).isSome
      · rw [List.map_cons, List.find?_cons_of_pos _ (by simp [is_response, he, hf])]
        simp [send_command, he, hf]
      · rw [List.map_cons, List.find?_cons_of_neg _ (by simp [is_response, he, hf])]
        simpa [send_command, he, hf] using ih

/-- C1 (amended): for every command, over well-formed response-pipe lines,
`send_command` returns the first line that lacks an `"event"` key *and*
carries the command's expected discriminant field (`"models"` for
`model_status`, `"status"` for `health`, `"success"` otherwise) — erring at
end-of-stream when there is none — and inserting an additional well-formed
log line (an object with an `"event"` key) anywhere never changes the
returned value. -/
theorem send_command_first_response (command : String) (lines pre post : List Json)
    (l : Json) (h : (l.get "event").isSome = true) :
    (send_command false command (lines.map some) =
      match lines.find? (is_response command) with
      | some r => Except.ok r
      | none => Except.error "Failed to parse JSON") ∧
    send_command false command ((pre ++ l :: post).map some) =
      send_command false command ((pre ++ post).map some) := by
  refine ⟨send_command_eq_find command lines, ?_⟩
  rw [send_command_eq_find, send_command_eq_find]
  have hl : ¬ (is_response command l = true) := by simp [is_response, h]
  rw [List.find?_append, List.find?_append, List.find?_cons_of_neg _ hl]

/-- Witness for C1: a log line inserted before the `success` response of a
`"chat"` command leaves the returned response unchanged. -/
theorem send_command_first_response_witness :
    (Json.get (Json.obj [("event", Json.str "log")]) "event").isSome = true ∧
    ((send_command false "chat"
        ([Json.obj [("success", Json.bool true)]].map some) =
      match [Json.obj [("success", Json.bool true)]].find? (is_response "chat") with
      | some r => Except.ok r
      | none => Except.error "Failed to parse JSON") ∧
     send_command false "chat"
        (([] ++ Json.obj [("event", Json.str "log")] ::
            [Json.obj [("success", Json.bool true)]]).map some) =
      send_command false "chat" (([] ++ [Json.obj [("success", Json.bool true)]]).map some)) :=
  ⟨rfl,
   send_command_first_response "chat" [Json.obj [("success", Json.bool true)]]
     [] [Json.obj [("success", Json.bool true)]]
     (Json.obj [("event", Json.str "log")]) rfl⟩

-- ============================================================================
-- C6: stop_recording
-- ============================================================================

/-- C6: `stop_recording` fails with `Not recording` when no session is
active, fails with the empty-recording error when zero samples were
captured, and otherwise returns an artifact whose sample count is the buffer
length, whose sample rate is 16000, and whose duration is the sample count
divided by the sample rate. -/
theorem stop_recording_spec (st : RecorderState) :
    (st.is_recording = false → stop_recording st = Except.error "Not recording") ∧
    (st.is_recording = true → st.buffer = [] →
      stop_recording st = Except.error "No audio data recorded") ∧
    (st.is_recording = true → st.buffer ≠ [] →
      stop_recording st =
        Except.ok
          { sample_rate := 16000
            duration_secs := (st.buffer.length : ℚ) / 16000
            sample_count := st.buffer.length }) := by
  refine ⟨?_, ?_, ?_⟩
  · intro h
    simp [stop_recording, h]
  · intro h1 h2
    simp [stop_recording, h1, h2]
  · intro h1 h2
    simp [stop_recording, SAMPLE_RATE, h1, h2]

/-- Witness for C6 on the three concrete recorder states. -/
theorem stop_recording_spec_witness :
    stop_recording ⟨false, [(1 : ℚ)]⟩ = Except.error "Not recording" ∧
    stop_recording ⟨true, []⟩ = Except.error "No audio data recorded" ∧
    stop_recording ⟨true, [(1 : ℚ)]⟩ =
      Except.ok
        { sample_rate := 16000
          duration_secs := (([(1 : ℚ)].length : ℚ)) / 16000
          sample_count := [(1 : ℚ)].length } :=
  ⟨(stop_recording_spec ⟨false, [(1 : ℚ)]⟩).1 rfl,
   (stop_recording_spec ⟨true, []⟩).2.1 rfl rfl,
   (stop_recording_spec ⟨true, [(1 : ℚ)]⟩).2.2 rfl (by simp)⟩

-- ============================================================================
-- C8: resampling boundary
-- ============================================================================

/-- C8: processing mono samples at the target rate is the identity, and
processing `M` mono samples at any other rate `R` produces exactly
`⌈M * 16000 / R⌉` output samples (the source's `f64` arithmetic idealized as
exact rationals). -/
theorem process_audio_data_spec (data : List ℚ) (src_rate : Nat)
    (h : src_rate ≠ 16000) :
    process_audio_data data 16000 1 = data ∧
    (process_audio_data data src_rate 1).length =
      (⌈(data.length : ℚ) * 16000 / (src_rate : ℚ)⌉).toNat := by
  refine ⟨rfl, ?_⟩
  simp only [process_audio_data, SAMPLE_RATE]
  rw [if_pos h]
  simp only [List.length_map, List.length_range]
  norm_num [mul_div_assoc]

/-- Witness for C8: one sample at 8000 Hz. -/
theorem process_audio_data_spec_witness :
    (8000 : Nat) ≠ 16000 ∧
    (process_audio_data [(0 : ℚ)] 16000 1 = [(0 : ℚ)] ∧
     (process_audio_data [(0 : ℚ)] 8000 1).length =
       (⌈(([(0 : ℚ)].length : ℚ)) * 16000 / ((8000 : Nat) : ℚ)⌉).toNat) :=
  ⟨by decide, process_audio_data_spec [(0 : ℚ)] 8000 (by decide)⟩

-- ============================================================================
-- C7: WAV encoding
-- ============================================================================

/-- Each sample contributes exactly two bytes to the WAV body. -/
theorem sample_bytes_length (l : List ℚ) :
    (sample_bytes l).length = 2 * l.length := by
  induction l with
  | nil => rfl
  | cons s rest ih =>
    simp [sample_bytes, i16_le_bytes, u16_le_bytes, ih]
    omega

/-- Reading back the data-chunk size field (bytes 40-43) recovers the `u32`
cast of twice the sample count. -/
theorem wav_data_size_field (samples : List ℚ) :
    read_u32_le (samples_to_wav samples) 40 = samples.length * 2 % 4294967296 := by
  have h : read_u32_le (samples_to_wav samples) 40 =
      samples.length * 2 % 4294967296 % 256
      + 256 * (samples.length * 2 % 4294967296 / 256 % 256)
      + 65536 * (samples.length * 2 % 4294967296 / 65536 % 256)
      + 16777216 * (samples.length * 2 % 4294967296 / 16777216 % 256) := by
    simp [read_u32_le, samples_to_wav, u32_le_bytes, u16_le_bytes]
  rw [h]
  omega

/-- Reading back the RIFF size field (bytes 4-7) recovers the `u32` sum
`data_size + 36`. -/
theorem wav_riff_size_field (samples : List ℚ) :
    read_u32_le (samples_to_wav samples) 4 =
      (samples.length * 2 % 4294967296 + 36) % 4294967296 := by
  have h : read_u32_le (samples_to_wav samples) 4 =
      (samples.length * 2 % 4294967296 + 36) % 4294967296 % 256
      + 256 * ((samples.length * 2 % 4294967296 + 36) % 4294967296 / 256 % 256)
      + 65536 * ((samples.length * 2 % 4294967296 + 36) % 4294967296 / 65536 % 256)
      + 16777216 * ((samples.length * 2 % 4294967296 + 36) % 4294967296 / 16777216 % 256) := by
    simp [read_u32_le, samples_to_wav, u32_le_bytes, u16_le_bytes]
  rw [h]
  omega

/-- C7 counterexample: at `N = 2 ^ 31` samples the `(len * 2) as u32` cast
wraps, so the data-chunk size field read back from the header is **not**
`2 * N`, refuting the claim's unrestricted quantification. -/
theorem samples_to_wav_overflow_cex :
    read_u32_le (samples_to_wav (List.replicate 2147483648 (0 : ℚ))) 40 ≠
      2 * 2147483648 := by
  rw [wav_data_size_field, List.length_replicate]
  decide

/-- C7 (amended): for every list of `N` samples with `2 * N + 36 < 2 ^ 32`
(so the `u32` size fields do not wrap), the encoder output has length
`44 + 2 * N`, starts with `RIFF`, carries `WAVE` at bytes 8-11, a data-chunk
size field of `2 * N`, a RIFF size field of `2 * N + 36`, and a fmt chunk
declaring PCM format 1, 1 channel, sample rate 16000 and 16 bits per
sample. -/
theorem samples_to_wav_spec (samples : List ℚ)
    (h : 2 * samples.length + 36 < 4294967296) :
    (samples_to_wav samples).length = 44 + 2 * samples.length ∧
    (samples_to_wav samples).take 4 = [82, 73, 70, 70] ∧
    ((samples_to_wav samples).drop 8).take 4 = [87, 65, 86, 69] ∧
    read_u32_le (samples_to_wav samples) 40 = 2 * samples.length ∧
    read_u32_le (samples_to_wav samples) 4 = 2 * samples.length + 36 ∧
    read_u16_le (samples_to_wav samples) 20 = 1 ∧
    read_u16_le (samples_to_wav samples) 22 = 1 ∧
    read_u32_le (samples_to_wav samples) 24 = 16000 ∧
    read_u16_le (samples_to_wav samples) 34 = 16 := by
  refine ⟨?_, ?_, ?_, ?_, ?_, ?_, ?_, ?_, ?_⟩
  · simp [samples_to_wav, u32_le_bytes, u16_le_bytes, sample_bytes_length]
    omega
  · simp [samples_to_wav, u32_le_bytes, u16_le_bytes]
  · simp [samples_to_wav, u32_le_bytes, u16_le_bytes]
  · rw [wav_data_size_field]
    omega
  · rw [wav_riff_size_field]
    omega
  · simp [read_u16_le, samples_to_wav, u32_le_bytes, u16_le_bytes]
  · simp [read_u16_le, samples_to_wav, u32_le_bytes, u16_le_bytes, CHANNELS]
  · simp [read_u32_le, samples_to_wav, u32_le_bytes, u16_le_bytes, SAMPLE_RATE]
  · simp [read_u16_le, samples_to_wav, u32_le_bytes, u16_le_bytes]

/-- Witness for C7 at a single sample. -/
theorem samples_to_wav_spec_witness :
    2 * [(0 : ℚ)].length + 36 < 4294967296 ∧
    ((samples_to_wav [(0 : ℚ)]).length = 44 + 2 * [(0 : ℚ)].length ∧
     (samples_to_wav [(0 : ℚ)]).take 4 = [82, 73, 70, 70] ∧
     ((samples_to_wav [(0 : ℚ)]).drop 8).take 4 = [87, 65, 86, 69] ∧
     read_u32_le (samples_to_wav [(0 : ℚ)]) 40 = 2 * [(0 : ℚ)].length ∧
     read_u32_le (samples_to_wav [(0 : ℚ)]) 4 = 2 * [(0 : ℚ)].length + 36 ∧
     read_u16_le (samples_to_wav [(0 : ℚ)]) 20 = 1 ∧
     read_u16_le (samples_to_wav [(0 : ℚ)]) 22 = 1 ∧
     read_u32_le (samples_to_wav [(0 : ℚ)]) 24 = 16000 ∧
     read_u16_le (samples_to_wav [(0 : ℚ)]) 34 = 16) :=
  ⟨by decide, samples_to_wav_spec [(0 : ℚ)] (by decide)⟩
